import Mathlib

/-!
Verification of the `ipv6test` connectivity-analysis engine.

The Go package under verification runs a battery of HTTP probes and turns
the per-probe outcomes into diagnostic tokens and readiness scores.  The
definitions below are a shallow embedding of `pkg/ipv6test/analyzer.go`,
the shared type declarations, and the pure classification logic of the
probe runner (`runSingle` / `parseIPObservation`).  Go strings are Lean
`String`s, Go `int`/`int64`/`time.Duration` are Lean `Int`, and Go nil-able
pointers are `Option`s.  The HTTP transport itself is abstracted into an
`HTTPOutcome` input; everything after the network call is embedded as-is.
-/

/-! ## Type declarations (Go: types.go) -/

abbrev TestName := String

abbrev Status := String

def TestIPv4DNS : TestName := "ipv4_dns"

def TestIPv6DNS : TestName := "ipv6_dns"

def TestDualStack : TestName := "dual_stack"

def TestDualStackMTU : TestName := "dual_stack_mtu"

def TestIPv6MTU : TestName := "ipv6_mtu"

def TestDNSV6Resolver : TestName := "dns_v6_resolver"

def TestASNLookupV4 : TestName := "asn_v4"

def TestASNLookupV6 : TestName := "asn_v6"

def StatusOK : Status := "ok"

def StatusSlow : Status := "slow"

def StatusBad : Status := "bad"

def StatusTimeout : Status := "timeout"

def StatusSkipped : Status := "skipped"

def StatusError : Status := "error"

/-- Go struct `IpObservation`.  The Go field `Type` (JSON tag "type") is
spelled `Typ` here because `Type` is reserved in Lean. -/
structure IpObservation where
  IP : String := ""
  Typ : String := ""
  Subtype : String := ""
  Via : String := ""
  ASN : Int := 0
  ASNName : String := ""
  deriving DecidableEq, Repr

/-- Go struct `TestResult`; `Duration` (nanoseconds) is kept as `DurationNs`. -/
structure TestResult where
  Name : TestName := ""
  Status : Status := ""
  TimeMs : Int := 0
  URL : String := ""
  PacketSize : Int := 0
  IP : Option IpObservation := none
  Notes : String := ""
  HTTPStatusCode : Int := 0
  Error : String := ""
  DurationNs : Int := 0
  deriving DecidableEq, Repr

/-- Go struct `RunResult`; `StartedAt` is kept as nanoseconds since epoch. -/
structure RunResult where
  RunID : String := ""
  StartedAtNs : Int := 0
  DurationMs : Int := 0
  IPv4 : Option IpObservation := none
  IPv6 : Option IpObservation := none
  Results : List TestResult := []
  SlowThresholdMs : Int := 0
  TimeoutMs : Int := 0
  PacketSizeBytes : Int := 0
  deriving DecidableEq, Repr

/-! ## Analyzer (Go: analyzer.go) -/

/-- Go struct `TokenDetail`. -/
structure TokenDetail where
  Token : String := ""
  ScoreIPv4 : Int := 0
  ScoreIPv6 : Int := 0
  Color : String := ""
  Message : String := ""
  MoreInfo : String := ""
  deriving DecidableEq, Repr

/-- Go struct `Analysis`. -/
structure Analysis where
  Tokens : List TokenDetail := []
  ScoreTransition : Int := 0
  ScoreStrict : Int := 0
  MiniPrimary : String := ""
  MiniSecondary : String := ""
  deriving DecidableEq, Repr

/-- Go struct `statusIndex`: per-test status slots plus best-known
observations.  A Go zero-value `Status` is the empty string. -/
structure statusIndex where
  a : Status := ""
  aaaa : Status := ""
  ds4 : Status := ""
  ds6 : Status := ""
  v6mtu : Status := ""
  dsmtu : Status := ""
  v6ns : Status := ""
  ipv4 : Option IpObservation := none
  ipv6 : Option IpObservation := none
  deriving DecidableEq, Repr

/-- Go `statusChar`. -/
def statusChar (st : Status) : String :=
  if st = StatusOK then "o"
  else if st = StatusSlow then "s"
  else if st = StatusTimeout then "t"
  else if st = StatusBad ∨ st = StatusError then "b"
  else if st = StatusSkipped then "x"
  else "b"

/-- Go method `(statusIndex).miniPrimary`. -/
def statusIndex.miniPrimary (s : statusIndex) : String :=
  statusChar s.a ++ statusChar s.aaaa ++ statusChar s.ds4 ++ statusChar s.ds6

/-- Go method `(statusIndex).miniSecondary`. -/
def statusIndex.miniSecondary (s : statusIndex) : String :=
  statusChar s.v6mtu ++ statusChar s.v6ns

/-- ASCII lower-casing of one character, the kernel-reducible core of the
case folding used by Go's `strings.EqualFold` on the ASCII inputs this
package compares. -/
def charLower (c : Char) : Char :=
  if 65 ≤ c.val ∧ c.val ≤ 90 then Char.ofNat (c.val.toNat + 32) else c

/-- Go `strings.EqualFold`, modelled as ASCII case-insensitive equality
(the package only folds the ASCII words "ipv6", "Teredo", "6to4"). -/
def asciiEqualFold (x y : String) : Bool :=
  x.toList.map charLower == y.toList.map charLower

/-- The `else` arm of the Go `case TestDualStack`: attribute the status to
the IPv4 slot, default the IPv6 slot to bad when unset, and record an
exact-"ipv4" observation if none is known yet. -/
def applyDualStackElse (idx : statusIndex) (tr : TestResult) : statusIndex :=
  let i1 := { idx with ds4 := tr.Status }
  let i2 := if i1.ds6 = "" then { i1 with ds6 := StatusBad } else i1
  match tr.IP with
  | some o => if o.Typ = "ipv4" ∧ i2.ipv4 = none then { i2 with ipv4 := some o } else i2
  | none => i2

/-- One iteration of the loop body of Go `buildStatusIndex`: the `switch`
over `tr.Name`. -/
def applyResult (idx : statusIndex) (tr : TestResult) : statusIndex :=
  if tr.Name = TestIPv4DNS then
    let i1 := { idx with a := tr.Status }
    match tr.IP with
    | some o => if o.Typ = "ipv4" ∧ i1.ipv4 = none then { i1 with ipv4 := some o } else i1
    | none => i1
  else if tr.Name = TestIPv6DNS then
    let i1 := { idx with aaaa := tr.Status }
    match tr.IP with
    | some o => if o.Typ = "ipv6" ∧ i1.ipv6 = none then { i1 with ipv6 := some o } else i1
    | none => i1
  else if tr.Name = TestDualStack then
    match tr.IP with
    | some o =>
      if asciiEqualFold o.Typ "ipv6" then
        let i1 := { idx with ds6 := tr.Status }
        let i2 := if i1.ds4 = "" then { i1 with ds4 := StatusBad } else i1
        if i2.ipv6 = none then { i2 with ipv6 := some o } else i2
      else applyDualStackElse idx tr
    | none => applyDualStackElse idx tr
  else if tr.Name = TestDualStackMTU then { idx with dsmtu := tr.Status }
  else if tr.Name = TestIPv6MTU then { idx with v6mtu := tr.Status }
  else if tr.Name = TestDNSV6Resolver then { idx with v6ns := tr.Status }
  else idx

/-- The "Also record overall IPv4/IPv6 seen in the run summary" block of
Go `buildStatusIndex`.  The two sequential statements read and write
disjoint fields, so they are written as one simultaneous update. -/
def recordSummary (idx : statusIndex) (res : RunResult) : statusIndex :=
  { idx with
    ipv4 := match res.IPv4 with
            | some o => if idx.ipv4 = none then some o else idx.ipv4
            | none => idx.ipv4,
    ipv6 := match res.IPv6 with
            | some o => if idx.ipv6 = none then some o else idx.ipv6
            | none => idx.ipv6 }

/-- The "Default unset statuses to skipped" block of Go `buildStatusIndex`.
Each of the seven sequential statements reads and writes only its own
slot, so they are written as one simultaneous update. -/
def defaultSkipped (idx : statusIndex) : statusIndex :=
  { a := if idx.a = "" then StatusSkipped else idx.a,
    aaaa := if idx.aaaa = "" then StatusSkipped else idx.aaaa,
    ds4 := if idx.ds4 = "" then StatusSkipped else idx.ds4,
    ds6 := if idx.ds6 = "" then StatusSkipped else idx.ds6,
    v6mtu := if idx.v6mtu = "" then StatusSkipped else idx.v6mtu,
    dsmtu := if idx.dsmtu = "" then StatusSkipped else idx.dsmtu,
    v6ns := if idx.v6ns = "" then StatusSkipped else idx.v6ns,
    ipv4 := idx.ipv4, ipv6 := idx.ipv6 }

/-- Go `buildStatusIndex`: walk the results, then record the run-summary
observations, then default unset slots to skipped. -/
def buildStatusIndex (res : RunResult) : statusIndex :=
  defaultSkipped (recordSummary (res.Results.foldl applyResult {}) res)

/-- Go `isTunnelType`. -/
def isTunnelType (ip : Option IpObservation) (name : String) : Bool :=
  match ip with
  | none => false
  | some o => asciiEqualFold o.Subtype name

/-- Go `isTunnel`. -/
def isTunnel (ip : Option IpObservation) : Bool :=
  isTunnelType ip "Teredo" || isTunnelType ip "6to4"

/-- Go `isGood`. -/
def isGood (st : Status) : Bool :=
  st == StatusOK || st == StatusSlow

/-- Go `isBadish`. -/
def isBadish (st : Status) : Bool :=
  st == StatusBad || st == StatusTimeout || st == StatusError

/-- The guard `st.ipv4 != nil && st.ipv4.IP != ""` used by `deriveTokens`. -/
def hasObs : Option IpObservation → Bool
  | some o => o.IP != ""
  | none => false

/-- Rule 1 of Go `deriveTokens` ("No address fallbacks"): the

`if / else if / else if` chain on the observed families. -/
def addrTokens (st : statusIndex) : List String :=
  let hasIPv4 := hasObs st.ipv4
  let hasIPv6 := hasObs st.ipv6
  if !hasIPv4 && !hasIPv6 then ["no_address"]
  else if !hasIPv4 then ["ipv4:no_address"]
  else if !hasIPv6 then ["ipv6:no_address"]
  else []

/-- Rule 2 of Go `deriveTokens` ("Primary connectivity buckets"): the
`switch` on the observed-family combination. -/
def primaryTokens (st : statusIndex) : List String :=
  let hasIPv4 := hasObs st.ipv4
  let hasIPv6 := hasObs st.ipv6
  if hasIPv4 && !hasIPv6 then
    (let ds := statusChar st.ds6
     if ds = "s" then ["ipv4_only:ds_slow"]
     else if ds = "t" ∨ ds = "b" then ["ipv4_only:ds_timeout"]
     else ["ipv4_only:ds_good"]) ++ ["ipv4_only"]
  else if hasIPv6 && !hasIPv4 then ["ipv6_only"]
  else if hasIPv4 && hasIPv6 then
    (let c := statusChar st.ds6
     if c = "b" ∨ c = "t" then ["avoids_ipv6"] else ["dualstack:safe"])
  else []

/-- Rule 3 of Go `deriveTokens` ("DNS v6 resolver"). -/
def v6nsTokens (st : statusIndex) : List String :=
  if (isGood st.ds4 || isGood st.ds6) && (st.v6ns != "") && (st.v6ns != StatusSkipped) then
    if isGood st.v6ns then ["v6ns:ok"] else ["v6ns:bad"]
  else []

/-- Rule 4 of Go `deriveTokens` ("MTU problems"). -/
def mtuTokens (st : statusIndex) : List String :=
  if isGood st.aaaa && (isBadish st.v6mtu || isBadish st.dsmtu) then ["IPv6 MTU"] else []

/-- Rule 5 of Go `deriveTokens` ("Need IPv6 encouragement"). -/
def needsTokens (st : statusIndex) : List String :=
  if !(hasObs st.ipv6) || isTunnel st.ipv6 then
    if isGood st.dsmtu || (st.dsmtu == StatusSkipped) then ["needs_ipv6"] else []
  else if !(isGood st.dsmtu) && (st.dsmtu != StatusSkipped) then ["dualstack:unsafe"]
  else []

/-- Rule 6 of Go `deriveTokens` ("Tunnels"). -/
def tunnelTokens (st : statusIndex) : List String :=
  (if isTunnelType st.ipv6 "Teredo" then ["teredo"] else []) ++
  (if isTunnelType st.ipv6 "6to4" then ["6to4"] else [])

/-- The token-appending rules of Go `deriveTokens` before its final
empty-list fallback, written as the concatenation of the sequentially
appended rule outputs. -/
def deriveTokensCore (st : statusIndex) : List String :=
  addrTokens st ++ primaryTokens st ++ v6nsTokens st ++ mtuTokens st ++
    needsTokens st ++ tunnelTokens st

/-- Go `deriveTokens` (its `res` and `miniSecondary` parameters are unused
by the Go function body as well). -/
def deriveTokens (_res : RunResult) (st : statusIndex)
    (miniPrimary _miniSecondary : String) : List String :=
  let tokens := deriveTokensCore st
  if tokens = [] then [miniPrimary] else tokens

/-- Recursion of Go `dedupe` with the seen-set made explicit. -/
def dedupeAux : List String → List String → List String
  | _, [] => []
  | seen, t :: rest =>
    if t ∈ seen then dedupeAux seen rest else t :: dedupeAux (t :: seen) rest

/-- Go `dedupe`: keep the first occurrence of each token. -/
def dedupe (l : List String) : List String := dedupeAux [] l

def intGreen : Int := 1

def intRed : Int := 2

def intBlue : Int := 3

def intOrange : Int := 4

/-- Go map `scoreTable`, as a lookup function (`none` = key absent). -/
def scoreTable (t : String) : Option (Int × Int × Int) :=
  if t = "6to4" then some (7, 7, intBlue)
  else if t = "teredo" then some (7, 7, intBlue)
  else if t = "teredo-v4pref" then some (10, 7, intBlue)
  else if t = "teredo-minimum" then some (10, 0, intBlue)
  else if t = "IPv6 MTU" then some (1, 1, intRed)
  else if t = "dualstack:ipv4_preferred" then some (10, 10, intGreen)
  else if t = "dualstack:ipv6_preferred" then some (10, 10, intGreen)
  else if t = "dualstack:slow" then some (7, 7, intBlue)
  else if t = "ipv4_only" then some (10, 0, intBlue)
  else if t = "ipv4_only:ds_good" then some (10, 0, intBlue)
  else if t = "ipv4_only:ds_slow" then some (5, 0, intRed)
  else if t = "ipv4_only:ds_timeout" then some (5, 0, intRed)
  else if t = "ipv4_slow" then some (5, 10, intRed)
  else if t = "ipv6_only" then some (0, 10, intBlue)
  else if t = "ipv6_slow" then some (10, 5, intRed)
  else if t = "ipv6_timeout" then some (10, 0, intRed)
  else if t = "ipv6:nodns" then some (10, 0, intRed)
  else if t = "broken_ipv6" then some (0, 0, intRed)
  else if t = "webfilter:blocked" then some (-1, -1, intOrange)
  else if t = "webfilter:dsboth" then some (10, 10, intOrange)
  else if t = "webfilter:addons" then some (10, 10, intOrange)
  else if t = "webfilter:firefox" then some (10, 10, intOrange)
  else if t = "v6ns:ok" then some (10, 10, intGreen)
  else if t = "v6ns:bad" then some (10, 9, intBlue)
  else if t = "ip_timeout:firefox" then some (10, 10, intRed)
  else if t = "ipv4:no_address" then some (10, 10, intBlue)
  else if t = "ipv6:no_address" then some (10, 10, intRed)
  else if t = "no_address" then some (10, 10, intRed)
  else if t = "dualstack:safe" then some (10, 10, intGreen)
  else if t = "needs_ipv6" then some (10, 10, intBlue)
  else if t = "dualstack:unsafe" then some (10, 10, intRed)
  else if t = "dualstack:mtu" then some (10, 10, intRed)
  else if t = "proxy_via" then some (10, 10, intOrange)
  else if t = "proxy_via_dumb" then some (10, 10, intOrange)
  else if t = "broken" then some (0, 0, intBlue)
  else if t = "avoids_ipv6" then some (10, 10, intOrange)
  else none

/-- Go `colorName`. -/
def colorName (code : Int) : String :=
  if code = intGreen then "GREEN"
  else if code = intRed then "RED"
  else if code = intBlue then "BLUE"
  else if code = intOrange then "ORANGE"
  else "YELLOW"

/-- Go map `messageTable`, as a total lookup (a missing Go map key reads
as the zero value ""). -/
def messageTable (t : String) : String :=
  if t = "6to4" then "You appear to be using a public 6to4 gateway; performance may suffer. Native IPv6 is preferred."
  else if t = "teredo" then "Your IPv6 connection appears to be using Teredo, a public IPv4/IPv6 gateway; quality may suffer."
  else if t = "teredo-v4pref" then "Your IPv6 connection uses Teredo as a last resort; IPv4 will be preferred on dual-stack sites."
  else if t = "teredo-minimum" then "Your IPv6 connection uses Teredo and only works to literal IPs; not useful for browsing IPv6 sites."
  else if t = "IPv6 MTU" then "IPv6 works but large packets fail; check MTU and allow ICMPv6 Packet Too Big."
  else if t = "dualstack:ipv4_preferred" then "Dual-stack reachable; browser prefers IPv4."
  else if t = "dualstack:ipv6_preferred" then "Dual-stack reachable; browser prefers IPv6."
  else if t = "dualstack:slow" then "Dual-stack reachable but browser slows down when both families are offered."
  else if t = "ipv4_only" then "You appear to be able to browse the IPv4 Internet only. You will not be able to reach IPv6-only sites."
  else if t = "ipv4_only:ds_good" then "When a publisher offers both IPv4 and IPv6, your browser takes IPv4 without delay."
  else if t = "ipv4_only:ds_slow" then "When a publisher offers both IPv4 and IPv6, your browser is slower than IPv4-only sites."
  else if t = "ipv4_only:ds_timeout" then "When a publisher offers both IPv4 and IPv6, your browser times out trying to connect."
  else if t = "ipv4_slow" then "Connections to IPv4 are slow, but functional."
  else if t = "ipv6_only" then "You appear to be able to browse the IPv6 Internet only. You have no access to IPv4."
  else if t = "ipv6_slow" then "Connections to IPv6 are slow, but functional."
  else if t = "ipv6_timeout" then "Connections to IPv6-only sites are timing out."
  else if t = "ipv6:nodns" then "IPv6 connections work, but DNS lookups do not use IPv6 (no AAAA)."
  else if t = "broken_ipv6" then "You appear to have IPv6 configured, but it completely fails for IPv6 sites."
  else if t = "webfilter:blocked" then "Tests appear blocked by a firewall or browser filter; critical tests failed."
  else if t = "webfilter:dsboth" then "Dual-stack tests appear blocked by a browser or network filter."
  else if t = "webfilter:addons" then "Browser blocked test URLs; alternate methods may be incomplete."
  else if t = "webfilter:firefox" then "Likely a Firefox add-on (e.g., NoScript/AdBlock) blocked tests."
  else if t = "v6ns:ok" then "Your DNS server appears to have IPv6 Internet access."
  else if t = "v6ns:bad" then "Your DNS server appears to have no IPv6 Internet access or is not configured to use it."
  else if t = "ip_timeout:firefox" then "Firefox add-on likely caused IP-based tests to fail."
  else if t = "ipv4:no_address" then "No IPv4 address detected."
  else if t = "ipv6:no_address" then "No IPv6 address detected."
  else if t = "no_address" then "IP addresses could not be detected due to interference from browser add-ons."
  else if t = "dualstack:safe" then "Good news! Your current configuration will continue to work as sites enable IPv6."
  else if t = "needs_ipv6" then "To ensure the best Internet performance and connectivity, ask your ISP about native IPv6."
  else if t = "dualstack:unsafe" then "Our tests show dual-stack readiness is unsafe; IPv6 may cause problems."
  else if t = "dualstack:mtu" then "MTU issues detected; IPv6-only sites may fail or load slowly."
  else if t = "proxy_via" then "A proxy was detected; tests reflect the proxy, not the local host."
  else if t = "proxy_via_dumb" then "A proxy was detected; tests reflect the proxy, not the local host."
  else if t = "broken" then "We have suggestions to help you fix your system."
  else if t = "avoids_ipv6" then "Browser has working IPv6 but is avoiding using it; this is concerning."
  else ""

/-- Go map `moreInfoTable`, as a total lookup (missing key reads as ""). -/
def moreInfoTable (t : String) : String :=
  if t = "ipv6:no_address" then "faq_no_ipv6.html"
  else if t = "needs_ipv6" then "faq_no_ipv6.html"
  else if t = "6to4" then "faq_6to4.html"
  else if t = "teredo-minimum" then "faq_teredo_minimum.html"
  else if t = "v6ns:bad" then "faq_v6ns_bad.html"
  else if t = "webfilter:blocked" then "faq_browser_plugins.html"
  else if t = "webfilter:dsboth" then "faq_browser_plugins.html"
  else if t = "webfilter:firefox" then "faq_firefox_plugins.html"
  else if t = "webfilter:addons" then "faq_browser_plugins.html"
  else if t = "ip_timeout:firefox" then "faq_firefox_plugins.html"
  else if t = "ipv6:nodns" then "faq_broken_aaaa.html"
  else if t = "avoids_ipv6" then "faq_avoids_ipv6.html"
  else ""

/-- The per-token body of the loop in Go `expandTokens`: a table hit uses
the score/message/moreInfo tables, a miss synthesizes the neutral entry. -/
def expandOne (t : String) : TokenDetail :=
  match scoreTable t with
  | none =>
    { Token := t, ScoreIPv4 := 10, ScoreIPv6 := 10, Color := "YELLOW",
      Message := "(unknown result code: " ++ t ++ ")", MoreInfo := "" }
  | some e =>
    { Token := t, ScoreIPv4 := e.1, ScoreIPv6 := e.2.1, Color := colorName e.2.2,
      Message := messageTable t, MoreInfo := moreInfoTable t }

/-- Bytewise less-than on character lists, the kernel-reducible model of
Go's string `<` (the tokens compared are ASCII, where Go's bytewise order
and code-point order agree). -/
def strLtb : List Char → List Char → Bool
  | [], [] => false
  | [], _ :: _ => true
  | _ :: _, [] => false
  | x :: xs, y :: ys =>
    if x.toNat < y.toNat then true
    else if y.toNat < x.toNat then false
    else strLtb xs ys

/-- Go string `<` on the model order. -/
def strLt (x y : String) : Bool := strLtb x.toList y.toList

/-- Go string `<=` on the model order. -/
def strLe (x y : String) : Bool := !strLt y x

/-- Stable insertion of a detail into a Token-sorted list: the new element
goes after every element not strictly greater, matching the placement
`sort.SliceStable` gives elements arriving later. -/
def insertDetail (d : TokenDetail) : List TokenDetail → List TokenDetail
  | [] => [d]
  | e :: rest =>
    if strLt d.Token e.Token then d :: e :: rest else e :: insertDetail d rest

/-- Stable sort by `Token`, the model of
`sort.SliceStable(details, details[i].Token < details[j].Token)`. -/
def sortDetails (l : List TokenDetail) : List TokenDetail :=
  l.foldl (fun acc d => insertDetail d acc) []

/-- Go `expandTokens`: expand each token through the tables, then sort
stably by token identifier. -/
def expandTokens (tokens : List String) : List TokenDetail :=
  sortDetails (tokens.map expandOne)

/-- Go `computeScores`: running minima seeded at 100, then the 100
leftover becomes the -1 sentinel. -/
def computeScores (tokens : List TokenDetail) : Int × Int :=
  let p := tokens.foldl
    (fun acc t =>
      ((if t.ScoreIPv4 < acc.1 then t.ScoreIPv4 else acc.1),
       (if t.ScoreIPv6 < acc.2 then t.ScoreIPv6 else acc.2)))
    (100, 100)
  ((if p.1 = 100 then -1 else p.1), (if p.2 = 100 then -1 else p.2))

/-- Go `Analyze`. -/
def Analyze (res : RunResult) : Analysis :=
  let status := buildStatusIndex res
  let mp := status.miniPrimary
  let ms := status.miniSecondary
  let tokens := dedupe (deriveTokens res status mp ms)
  let details := expandTokens tokens
  let scores := computeScores details
  { Tokens := details, ScoreTransition := scores.1, ScoreStrict := scores.2,
    MiniPrimary := mp, MiniSecondary := ms }

/-! ## Probe runner (Go: runner.go)

The HTTP transport is the engine's only effect; it enters the embedding as
an `HTTPOutcome` input and everything `runSingle` does with it is embedded
directly.  `encoding/json` is Go-standard-library territory, so the
decoding of a response body into the observation structure is modelled by
a small executable JSON-object reader below. -/

/-- The opening-brace character, written by code point to keep brace
characters out of literals. -/
def lbrace : Char := Char.ofNat 123

/-- The closing-brace character. -/
def rbrace : Char := Char.ofNat 125

/-- JSON insignificant whitespace. -/
def isJsonWs (c : Char) : Bool :=
  c = ' ' || c = '\t' || c = '\n' || c = '\r'

/-- Drop leading JSON whitespace. -/
def skipWs (cs : List Char) : List Char := cs.dropWhile isJsonWs

/-- Read the remainder of a JSON string literal after its opening quote,
returning the contents and the input past the closing quote.  Escapes are
limited to the ones the probe endpoints emit. -/
def parseStringBody : Nat → List Char → Option (List Char × List Char)
  | 0, _ => none
  | _, [] => none
  | fuel + 1, c :: rest =>
    if c = '"' then some ([], rest)
    else if c = '\\' then
      match rest with
      | [] => none
      | e :: rest2 =>
        if e = '"' ∨ e = '\\' ∨ e = '/' then
          match parseStringBody fuel rest2 with
          | some (s, r) => some (e :: s, r)
          | none => none
        else none
    else
      match parseStringBody fuel rest with
      | some (s, r) => some (c :: s, r)
      | none => none

/-- Read a JSON string literal. -/
def parseJString (cs : List Char) : Option (String × List Char) :=
  match cs with
  | '"' :: rest =>
    match parseStringBody (rest.length + 1) rest with
    | some (s, r) => some (String.mk s, r)
    | none => none
  | _ => none

/-- Read a JSON integer literal. -/
def parseJInt (cs : List Char) : Option (Int × List Char) :=
  let p : Bool × List Char := match cs with
    | '-' :: r => (true, r)
    | _ => (false, cs)
  let ds := p.2.takeWhile (fun c => c.isDigit)
  if ds = [] then none
  else
    let n : Nat := ds.foldl (fun acc d => acc * 10 + (d.val.toNat - 48)) 0
    some ((if p.1 then -(n : Int) else (n : Int)), p.2.drop ds.length)

/-- A primitive JSON value as the observation structure uses them. -/
inductive JsonPrim where
  | str (s : String)
  | num (n : Int)
  deriving DecidableEq, Repr

/-- Read a primitive JSON value. -/
def parsePrim (cs : List Char) : Option (JsonPrim × List Char) :=
  match cs with
  | '"' :: _ =>
    match parseJString cs with
    | some (s, r) => some (JsonPrim.str s, r)
    | none => none
  | _ =>
    match parseJInt cs with
    | some (n, r) => some (JsonPrim.num n, r)
    | none => none

/-- Assign one decoded JSON field into the observation by its tag
(`ip`, `type`, `subtype`, `via`, `asn`, `asn_name`); a wrongly-typed value
is a decode error and an unknown key is ignored, as in Go. -/
def setObsField (o : IpObservation) (k : String) (v : JsonPrim) : Option IpObservation :=
  if k = "ip" then match v with | .str s => some { o with IP := s } | _ => none
  else if k = "type" then match v with | .str s => some { o with Typ := s } | _ => none
  else if k = "subtype" then match v with | .str s => some { o with Subtype := s } | _ => none
  else if k = "via" then match v with | .str s => some { o with Via := s } | _ => none
  else if k = "asn" then match v with | .num n => some { o with ASN := n } | _ => none
  else if k = "asn_name" then match v with | .str s => some { o with ASNName := s } | _ => none
  else some o

/-- Read the `"key": value` pairs of a JSON object up to and including its
closing brace, folding the fields into the observation. -/
def parsePairs : Nat → IpObservation → List Char → Option (IpObservation × List Char)
  | 0, _, _ => none
  | fuel + 1, o, cs =>
    match parseJString (skipWs cs) with
    | none => none
    | some (k, r1) =>
      match skipWs r1 with
      | ':' :: r2 =>
        match parsePrim (skipWs r2) with
        | none => none
        | some (v, r3) =>
          match setObsField o k v with
          | none => none
          | some o2 =>
            match skipWs r3 with
            | c :: r4 =>
              if c = ',' then parsePairs fuel o2 r4
              else if c = rbrace then some (o2, r4)
              else none
            | [] => none
      | _ => none

/-- Read a JSON object as an observation structure. -/
def parseObject (cs : List Char) : Option (IpObservation × List Char) :=
  match cs with
  | c :: rest =>
    if c = lbrace then
      match skipWs rest with
      | d :: r2 => if d = rbrace then some ({}, r2) else parsePairs (rest.length + 1) {} (skipWs rest)
      | [] => none
    else none
  | [] => none

/-- Modelled from the spec: Go's `json.Unmarshal(body, &IpObservation)`
boundary ("the probe response body is expected to be JSON ... with
optional fields for address, family, tunnel subtype, routing annotation
and ASN metadata").  The body must be one JSON object followed only by
whitespace; fields fill the observation, failure yields `none`. -/
def jsonUnmarshalIpObservation (body : String) : Option IpObservation :=
  match parseObject (skipWs body.toList) with
  | some (o, rest) => if skipWs rest = [] then some o else none
  | none => none

/-- The usability test `ipObs.IP != "" || ipObs.Type != ""` that Go
`parseIPObservation` applies to a decoded observation. -/
def usableObs (o : IpObservation) : Bool :=
  o.IP != "" || o.Typ != ""

/-- The span Go's JSONP fallback decodes: from the first opening brace of
the body to the last closing brace after it, decoded as an observation. -/
def spanDecode (body : String) : Option IpObservation :=
  match body.toList.dropWhile (fun c => c ≠ lbrace) with
  | [] => none
  | _ :: t =>
    let u := (t.reverse.dropWhile (fun c => c ≠ rbrace)).reverse
    if u = [] then none
    else jsonUnmarshalIpObservation (String.mk (lbrace :: u))

/-- The JSONP-wrapper arm of Go `parseIPObservation`: decode the brace
span and keep the result only when it is usable. -/
def jsonpFallback (body : String) : Option IpObservation :=
  match spanDecode body with
  | some o => if usableObs o then some o else none
  | none => none

/-- Go `parseIPObservation`: whole-body decode first, JSONP brace-span
fallback second, silent `none` when neither yields a usable observation. -/
def parseIPObservation (body : String) : Option IpObservation :=
  match jsonUnmarshalIpObservation body with
  | some o => if usableObs o then some o else jsonpFallback body
  | none => jsonpFallback body

/-- The outcome of the one HTTP transaction `runSingle` performs: request
construction failed, transport failed (deadline/canceled or otherwise),
or a response with a status code and body arrived. -/
inductive HTTPOutcome where
  | reqError (errText : String)
  | failure (deadlineOrCanceled : Bool) (errText : String)
  | response (code : Int) (body : String)
  deriving DecidableEq, Repr

/-- Go `runSingle` with the transport call abstracted into its outcome;
`durationNs` is the stopwatch reading around that call and
`slowThresholdNs` is `opts.SlowThreshold`.  A missing endpoint and an
empty endpoint URL take the same skipped arm, as in `!ok || url == ""`. -/
def runSingle (tn : TestName) (endpoint : Option String)
    (outcome : HTTPOutcome) (durationNs slowThresholdNs packetSize : Int) : TestResult :=
  match endpoint with
  | none => { Name := tn, Status := StatusSkipped, Notes := "no endpoint configured" }
  | some url =>
    if url = "" then { Name := tn, Status := StatusSkipped, Notes := "no endpoint configured" }
    else
      match outcome with
      | .reqError txt => { Name := tn, Status := StatusError, Error := txt, URL := url }
      | .failure dl txt =>
        { Name := tn, URL := url, PacketSize := packetSize,
          DurationNs := durationNs, TimeMs := durationNs / 1000000,
          Status := if dl then StatusTimeout else StatusError, Error := txt }
      | .response code body =>
        let tr : TestResult :=
          { Name := tn, URL := url, PacketSize := packetSize,
            DurationNs := durationNs, TimeMs := durationNs / 1000000,
            HTTPStatusCode := code, IP := parseIPObservation body }
        if 200 ≤ code ∧ code < 400 then
          if slowThresholdNs < durationNs then { tr with Status := StatusSlow }
          else { tr with Status := StatusOK }
        else { tr with Status := StatusBad, Error := "http status " ++ toString code }

/-! ## Helper lemmas -/

theorem mem_dedupeAux (x : String) : ∀ (l seen : List String),
    x ∈ dedupeAux seen l ↔ x ∈ l ∧ x ∉ seen := by
  intro l
  induction l with
  | nil => intro seen; simp [dedupeAux]
  | cons t rest ih =>
    intro seen
    by_cases ht : t ∈ seen
    · rw [dedupeAux, if_pos ht, ih]
      constructor
      · rintro ⟨hx, hns⟩; exact ⟨List.mem_cons_of_mem _ hx, hns⟩
      · rintro ⟨hx, hns⟩
        rcases List.mem_cons.mp hx with rfl | hx2
        · exact absurd ht hns
        · exact ⟨hx2, hns⟩
    · rw [dedupeAux, if_neg ht]
      constructor
      · intro hmem
        rcases List.mem_cons.mp hmem with rfl | hx2
        · exact ⟨List.mem_cons_self _ _, ht⟩
        · have h2 := (ih (t :: seen)).mp hx2
          exact ⟨List.mem_cons_of_mem _ h2.1, fun hs => h2.2 (List.mem_cons_of_mem _ hs)⟩
      · rintro ⟨hx, hns⟩
        rcases List.mem_cons.mp hx with rfl | hx2
        · exact List.mem_cons_self _ _
        · by_cases hxt : x = t
          · subst hxt; exact List.mem_cons_self _ _
          · refine List.mem_cons_of_mem _ ((ih (t :: seen)).mpr ⟨hx2, ?_⟩)
            intro hs
            rcases List.mem_cons.mp hs with h | h
            · exact hxt h
            · exact hns h

theorem mem_dedupe (x : String) (l : List String) : x ∈ dedupe l ↔ x ∈ l := by
  simp [dedupe, mem_dedupeAux]

theorem dedupe_ne_nil (l : List String) (h : l ≠ []) : dedupe l ≠ [] := by
  cases l with
  | nil => exact absurd rfl h
  | cons t rest => simp [dedupe, dedupeAux]

theorem dedupe_head (l : List String) : (dedupe l).head? = l.head? := by
  cases l with
  | nil => rfl
  | cons t rest => simp [dedupe, dedupeAux]

theorem strLtb_asymm : ∀ (a b : List Char), strLtb a b = true → strLtb b a = false := by
  intro a
  induction a with
  | nil => intro b h; cases b <;> simp [strLtb] at h ⊢
  | cons x xs ih =>
    intro b h
    cases b with
    | nil => simp [strLtb] at h
    | cons y ys =>
      simp only [strLtb] at h ⊢
      split_ifs at h ⊢ <;> try omega
      all_goals first
        | rfl
        | exact ih ys h

theorem strLtb_trans : ∀ (a b c : List Char),
    strLtb a b = true → strLtb b c = true → strLtb a c = true := by
  intro a
  induction a with
  | nil =>
    intro b c hab hbc
    cases c with
    | nil =>
      cases b with
      | nil => simp [strLtb] at hab
      | cons y ys => simp [strLtb] at hbc
    | cons z zs => simp [strLtb]
  | cons x xs ih =>
    intro b c hab hbc
    cases b with
    | nil => simp [strLtb] at hab
    | cons y ys =>
      cases c with
      | nil => simp [strLtb] at hbc
      | cons z zs =>
        simp only [strLtb] at hab hbc ⊢
        split_ifs at hab hbc ⊢ <;> try omega
        all_goals first
          | rfl
          | exact ih ys zs hab hbc

theorem strLt_asymm (x y : String) (h : strLt x y = true) : strLt y x = false :=
  strLtb_asymm _ _ h

theorem strLt_trans (x y z : String) (h1 : strLt x y = true) (h2 : strLt y z = true) :
    strLt x z = true :=
  strLtb_trans _ _ _ h1 h2

theorem insertDetail_perm (d : TokenDetail) (l : List TokenDetail) :
    List.Perm (insertDetail d l) (d :: l) := by
  induction l with
  | nil => simp [insertDetail]
  | cons e rest ih =>
    rw [insertDetail]
    split_ifs
    · exact List.Perm.refl _
    · exact (List.Perm.cons e ih).trans (List.Perm.swap d e rest)

theorem sortDetailsAux_perm : ∀ (l acc : List TokenDetail),
    List.Perm (l.foldl (fun acc d => insertDetail d acc) acc) (acc ++ l) := by
  intro l
  induction l with
  | nil => intro acc; simp
  | cons d rest ih =>
    intro acc
    have h1 := ih (insertDetail d acc)
    have h2 := (insertDetail_perm d acc).append_right rest
    have h3 : List.Perm (acc ++ d :: rest) (d :: (acc ++ rest)) := List.perm_middle
    simp only [List.foldl_cons]
    exact (h1.trans (h2.trans (by simp))).trans h3.symm

theorem sortDetails_perm (l : List TokenDetail) : List.Perm (sortDetails l) l := by
  simpa using sortDetailsAux_perm l []

theorem pairwise_insertDetail (d : TokenDetail) (l : List TokenDetail)
    (h : l.Pairwise (fun a b => strLt b.Token a.Token = false)) :
    (insertDetail d l).Pairwise (fun a b => strLt b.Token a.Token = false) := by
  induction l with
  | nil => simp [insertDetail]
  | cons e rest ih =>
    rw [insertDetail]
    rcases List.pairwise_cons.mp h with ⟨he, hrest⟩
    split_ifs with hlt
    · refine List.pairwise_cons.mpr ⟨?_, h⟩
      intro x hx
      rcases List.mem_cons.mp hx with rfl | hx2
      · exact strLt_asymm _ _ hlt
      · cases hcase : strLt x.Token d.Token
        · rfl
        · have h2 := strLt_trans _ _ _ hcase hlt
          have h3 := he x hx2
          simp [h3] at h2
    · refine List.pairwise_cons.mpr ⟨?_, ih hrest⟩
      intro x hx
      have hx2 := (insertDetail_perm d rest).mem_iff.mp hx
      rcases List.mem_cons.mp hx2 with rfl | hx3
      · cases hcase : strLt x.Token e.Token
        · rfl
        · exact absurd hcase hlt
      · exact he x hx3

theorem pairwise_sortDetails (l : List TokenDetail) :
    (sortDetails l).Pairwise (fun a b => strLt b.Token a.Token = false) := by
  suffices h : ∀ (l acc : List TokenDetail),
      acc.Pairwise (fun a b => strLt b.Token a.Token = false) →
      (l.foldl (fun acc d => insertDetail d acc) acc).Pairwise
        (fun a b => strLt b.Token a.Token = false) by
    exact h l [] (by simp)
  intro l
  induction l with
  | nil => intro acc hacc; simpa using hacc
  | cons d rest ih =>
    intro acc hacc
    simp only [List.foldl_cons]
    exact ih _ (pairwise_insertDetail d acc hacc)

/-- The running-minimum fold of `computeScores`, one component at a time. -/
def foldMin (f : TokenDetail → Int) (l : List TokenDetail) (a : Int) : Int :=
  l.foldl (fun acc t => if f t < acc then f t else acc) a

theorem foldMin_le_init (f : TokenDetail → Int) :
    ∀ (l : List TokenDetail) (a : Int), foldMin f l a ≤ a := by
  intro l
  induction l with
  | nil => intro a; simp [foldMin]
  | cons t rest ih =>
    intro a
    have h1 := ih (if f t < a then f t else a)
    have h2 : (if f t < a then f t else a) ≤ a := by split_ifs <;> omega
    exact le_trans h1 h2

theorem foldMin_le_mem (f : TokenDetail → Int) :
    ∀ (l : List TokenDetail) (a : Int) (d : TokenDetail), d ∈ l → foldMin f l a ≤ f d := by
  intro l
  induction l with
  | nil => intro a d hd; simp at hd
  | cons t rest ih =>
    intro a d hd
    rcases List.mem_cons.mp hd with rfl | hd2
    · have h1 := foldMin_le_init f rest (if f d < a then f d else a)
      have h2 : (if f d < a then f d else a) ≤ f d := by split_ifs <;> omega
      exact le_trans h1 h2
    · exact ih _ d hd2

theorem foldMin_attained (f : TokenDetail → Int) :
    ∀ (l : List TokenDetail) (a : Int),
      foldMin f l a = a ∨ ∃ d ∈ l, foldMin f l a = f d := by
  intro l
  induction l with
  | nil => intro a; left; rfl
  | cons t rest ih =>
    intro a
    have hstep : foldMin f (t :: rest) a = foldMin f rest (if f t < a then f t else a) := rfl
    rcases ih (if f t < a then f t else a) with h | ⟨d, hd, hdeq⟩
    · rw [hstep, h]
      split_ifs with hc
      · exact Or.inr ⟨t, List.mem_cons_self _ _, rfl⟩
      · exact Or.inl rfl
    · exact Or.inr ⟨d, List.mem_cons_of_mem _ hd, hstep ▸ hdeq⟩

theorem computeScores_split (l : List TokenDetail) :
    computeScores l =
      ((if foldMin (fun t => t.ScoreIPv4) l 100 = 100 then -1
        else foldMin (fun t => t.ScoreIPv4) l 100),
       (if foldMin (fun t => t.ScoreIPv6) l 100 = 100 then -1
        else foldMin (fun t => t.ScoreIPv6) l 100)) := by
  have hsplit : ∀ (l : List TokenDetail) (a b : Int),
      (l.foldl (fun acc t =>
        ((if t.ScoreIPv4 < acc.1 then t.ScoreIPv4 else acc.1),
         (if t.ScoreIPv6 < acc.2 then t.ScoreIPv6 else acc.2))) (a, b)) =
      (foldMin (fun t => t.ScoreIPv4) l a, foldMin (fun t => t.ScoreIPv6) l b) := by
    intro l
    induction l with
    | nil => intro a b; rfl
    | cons t rest ih => intro a b; exact ih _ _
  simp only [computeScores, hsplit]

theorem computeScores_of_bounded (l : List TokenDetail) (hne : l ≠ [])
    (hb : ∀ d ∈ l, d.ScoreIPv4 ≤ 10 ∧ d.ScoreIPv6 ≤ 10) :
    (∀ d ∈ l, (computeScores l).1 ≤ d.ScoreIPv4 ∧ (computeScores l).2 ≤ d.ScoreIPv6) ∧
    (∃ d ∈ l, (computeScores l).1 = d.ScoreIPv4) ∧
    (∃ d ∈ l, (computeScores l).2 = d.ScoreIPv6) := by
  obtain ⟨d0, hd0⟩ : ∃ d, d ∈ l := by
    cases l with
    | nil => exact absurd rfl hne
    | cons t rest => exact ⟨t, List.mem_cons_self _ _⟩
  have h4le := foldMin_le_mem (fun t => t.ScoreIPv4) l 100 d0 hd0
  have h6le := foldMin_le_mem (fun t => t.ScoreIPv6) l 100 d0 hd0
  have h4le2 : foldMin (fun t => t.ScoreIPv4) l 100 ≤ d0.ScoreIPv4 := h4le
  have h6le2 : foldMin (fun t => t.ScoreIPv6) l 100 ≤ d0.ScoreIPv6 := h6le
  have h4ne : foldMin (fun t => t.ScoreIPv4) l 100 ≠ 100 := by
    have := (hb d0 hd0).1; omega
  have h6ne : foldMin (fun t => t.ScoreIPv6) l 100 ≠ 100 := by
    have := (hb d0 hd0).2; omega
  rw [computeScores_split, if_neg h4ne, if_neg h6ne]
  refine ⟨fun d hd => ⟨foldMin_le_mem _ l 100 d hd, foldMin_le_mem _ l 100 d hd⟩, ?_, ?_⟩
  · rcases foldMin_attained (fun t => t.ScoreIPv4) l 100 with h | ⟨d, hd, hdeq⟩
    · exact absurd h h4ne
    · exact ⟨d, hd, hdeq⟩
  · rcases foldMin_attained (fun t => t.ScoreIPv6) l 100 with h | ⟨d, hd, hdeq⟩
    · exact absurd h h6ne
    · exact ⟨d, hd, hdeq⟩

theorem mem_expandTokens (d : TokenDetail) (tokens : List String) :
    d ∈ expandTokens tokens ↔ ∃ t ∈ tokens, d = expandOne t := by
  unfold expandTokens
  rw [(sortDetails_perm _).mem_iff]
  simp [eq_comm]

theorem expandTokens_ne_nil (tokens : List String) (h : tokens ≠ []) :
    expandTokens tokens ≠ [] := by
  intro hcon
  unfold expandTokens at hcon
  have hlen := (sortDetails_perm (tokens.map expandOne)).length_eq
  rw [hcon] at hlen
  simp at hlen
  exact h (List.length_eq_zero.mp hlen.symm)

/-- Every token the deriver can emit before its fallback, in rule order. -/
def emittedTokens : List String :=
  ["no_address", "ipv4:no_address", "ipv6:no_address",
   "ipv4_only:ds_slow", "ipv4_only:ds_timeout", "ipv4_only:ds_good", "ipv4_only",
   "ipv6_only", "avoids_ipv6", "dualstack:safe",
   "v6ns:ok", "v6ns:bad", "IPv6 MTU", "needs_ipv6", "dualstack:unsafe",
   "teredo", "6to4"]

theorem mem_addrTokens (st : statusIndex) (t : String) (h : t ∈ addrTokens st) :
    t = "no_address" ∨ t = "ipv4:no_address" ∨ t = "ipv6:no_address" := by
  simp only [addrTokens] at h
  split_ifs at h <;> simp_all

theorem mem_primaryTokens (st : statusIndex) (t : String) (h : t ∈ primaryTokens st) :
    t = "ipv4_only:ds_slow" ∨ t = "ipv4_only:ds_timeout" ∨ t = "ipv4_only:ds_good" ∨
    t = "ipv4_only" ∨ t = "ipv6_only" ∨ t = "avoids_ipv6" ∨ t = "dualstack:safe" := by
  simp only [primaryTokens] at h
  split_ifs at h <;> simp_all <;> tauto

theorem mem_v6nsTokens (st : statusIndex) (t : String) (h : t ∈ v6nsTokens st) :
    t = "v6ns:ok" ∨ t = "v6ns:bad" := by
  simp only [v6nsTokens] at h
  split_ifs at h <;> simp_all

theorem mem_mtuTokens (st : statusIndex) (t : String) (h : t ∈ mtuTokens st) :
    t = "IPv6 MTU" := by
  simp only [mtuTokens] at h
  split_ifs at h <;> simp_all

theorem mem_needsTokens (st : statusIndex) (t : String) (h : t ∈ needsTokens st) :
    t = "needs_ipv6" ∨ t = "dualstack:unsafe" := by
  simp only [needsTokens] at h
  split_ifs at h <;> simp_all

theorem mem_tunnelTokens (st : statusIndex) (t : String) (h : t ∈ tunnelTokens st) :
    t = "teredo" ∨ t = "6to4" := by
  simp only [tunnelTokens, List.mem_append] at h
  rcases h with h | h <;> split_ifs at h <;> simp_all

theorem mem_deriveTokensCore (st : statusIndex) (t : String)
    (h : t ∈ deriveTokensCore st) : t ∈ emittedTokens := by
  unfold deriveTokensCore at h
  simp only [List.mem_append] at h
  rcases h with ((((h | h) | h) | h) | h) | h
  · rcases mem_addrTokens st t h with rfl | rfl | rfl <;> decide
  · rcases mem_primaryTokens st t h with rfl | rfl | rfl | rfl | rfl | rfl | rfl <;> decide
  · rcases mem_v6nsTokens st t h with rfl | rfl <;> decide
  · rcases mem_mtuTokens st t h with rfl; decide
  · rcases mem_needsTokens st t h with rfl | rfl <;> decide
  · rcases mem_tunnelTokens st t h with rfl | rfl <;> decide

theorem deriveTokensCore_ne_nil (st : statusIndex) : deriveTokensCore st ≠ [] := by
  intro hcon
  unfold deriveTokensCore at hcon
  simp only [List.append_eq_nil] at hcon
  have haddr := hcon.1.1.1.1.1
  have hprim := hcon.1.1.1.1.2
  cases h4 : hasObs st.ipv4 <;> cases h6 : hasObs st.ipv6 <;>
    simp [addrTokens, primaryTokens, h4, h6] at haddr hprim
  split_ifs at hprim

theorem deriveTokens_eq_core (res : RunResult) (st : statusIndex) (mp ms : String) :
    deriveTokens res st mp ms = deriveTokensCore st := by
  unfold deriveTokens
  rw [if_neg (deriveTokensCore_ne_nil st)]


theorem applyResult_obs_of_IP_none (idx : statusIndex) (tr : TestResult) (h : tr.IP = none) :
    (applyResult idx tr).ipv4 = idx.ipv4 ∧ (applyResult idx tr).ipv6 = idx.ipv6 := by
  unfold applyResult applyDualStackElse
  rw [h]
  split_ifs <;> try simp
  all_goals split_ifs <;> exact ⟨rfl, rfl⟩

theorem foldl_obs_none (l : List TestResult) (h : ∀ tr ∈ l, tr.IP = none) :
    ∀ idx : statusIndex,
      (l.foldl applyResult idx).ipv4 = idx.ipv4 ∧ (l.foldl applyResult idx).ipv6 = idx.ipv6 := by
  induction l with
  | nil => intro idx; exact ⟨rfl, rfl⟩
  | cons tr rest ih =>
    intro idx
    have hhd := applyResult_obs_of_IP_none idx tr (h tr (List.mem_cons_self _ _))
    have htl := ih (fun x hx => h x (List.mem_cons_of_mem _ hx)) (applyResult idx tr)
    exact ⟨htl.1.trans hhd.1, htl.2.trans hhd.2⟩

theorem expandOne_token (t : String) : (expandOne t).Token = t := by
  unfold expandOne
  cases scoreTable t <;> rfl

theorem mem_map_token_expandTokens (x : String) (toks : List String) :
    x ∈ (expandTokens toks).map (fun d => d.Token) ↔ x ∈ toks := by
  simp only [List.mem_map]
  constructor
  · rintro ⟨d, hd, rfl⟩
    rcases (mem_expandTokens d toks).mp hd with ⟨t, ht, rfl⟩
    rw [expandOne_token]
    exact ht
  · intro hx
    exact ⟨expandOne x, (mem_expandTokens _ _).mpr ⟨x, hx, rfl⟩, expandOne_token x⟩

theorem emitted_bounds : ∀ t ∈ emittedTokens,
    0 ≤ (expandOne t).ScoreIPv4 ∧ (expandOne t).ScoreIPv4 ≤ 10 ∧
    0 ≤ (expandOne t).ScoreIPv6 ∧ (expandOne t).ScoreIPv6 ≤ 10 := by decide

theorem mem_core_cases (st : statusIndex) (t : String) (h : t ∈ deriveTokensCore st) :
    t ∈ addrTokens st ∨ t ∈ primaryTokens st ∨ t ∈ v6nsTokens st ∨
    t ∈ mtuTokens st ∨ t ∈ needsTokens st ∨ t ∈ tunnelTokens st := by
  simp only [deriveTokensCore, List.mem_append] at h
  tauto

/-! ## Claim theorems -/

/-- C1 (counterexample): `computeScores` applied to the nonempty detail
list that `webfilter:blocked` expands to returns the −1 sentinel in both
components, so the sentinel is not reserved for the empty list and the
result is not clamped to 0–10. -/
theorem computeScores_sentinel_nonempty_cex :
    computeScores [expandOne "webfilter:blocked"] = (-1, -1) ∧
    [expandOne "webfilter:blocked"] ≠ ([] : List TokenDetail) := by
  constructor
  · decide
  · simp

/-- C1 (amended): for every TokenDetail list whose contributions all lie
in 0–10, `computeScores` returns the pair of minima of the ScoreIPv4 and
ScoreIPv6 contributions, both within 0–10 (no clamping needed or done),
and returns the (−1, −1) sentinel pair for the empty list; outside that
range the code does not clamp, so a −1 contribution (webfilter:blocked)
propagates into a nonempty list's result. -/
theorem computeScores_minimum_amended (l : List TokenDetail)
    (hb : ∀ d ∈ l, 0 ≤ d.ScoreIPv4 ∧ d.ScoreIPv4 ≤ 10 ∧
                   0 ≤ d.ScoreIPv6 ∧ d.ScoreIPv6 ≤ 10) :
    (l = [] → computeScores l = (-1, -1)) ∧
    (l ≠ [] →
      (∀ d ∈ l, (computeScores l).1 ≤ d.ScoreIPv4 ∧ (computeScores l).2 ≤ d.ScoreIPv6) ∧
      (∃ d ∈ l, (computeScores l).1 = d.ScoreIPv4) ∧
      (∃ d ∈ l, (computeScores l).2 = d.ScoreIPv6) ∧
      0 ≤ (computeScores l).1 ∧ (computeScores l).1 ≤ 10 ∧
      0 ≤ (computeScores l).2 ∧ (computeScores l).2 ≤ 10) := by
  constructor
  · rintro rfl; rfl
  · intro hne
    obtain ⟨hle, ⟨d4, hd4, he4⟩, ⟨d6, hd6, he6⟩⟩ :=
      computeScores_of_bounded l hne (fun d hd => ⟨(hb d hd).2.1, (hb d hd).2.2.2⟩)
    refine ⟨hle, ⟨d4, hd4, he4⟩, ⟨d6, hd6, he6⟩, ?_, ?_, ?_, ?_⟩
    · rw [he4]; exact (hb d4 hd4).1
    · rw [he4]; exact (hb d4 hd4).2.1
    · rw [he6]; exact (hb d6 hd6).2.2.1
    · rw [he6]; exact (hb d6 hd6).2.2.2

/-- C1 (witness): the amended theorem applied to the singleton expansion
of `ipv4_only`, whose contributions are (10, 0). -/
theorem computeScores_minimum_amended_witness :
    ∃ d ∈ [expandOne "ipv4_only"],
      (computeScores [expandOne "ipv4_only"]).2 = d.ScoreIPv6 :=
  ((computeScores_minimum_amended [expandOne "ipv4_only"] (by decide)).2
    (by decide)).2.2.1

/-- C8: a token absent from the static score table expands to the neutral
flagged entry (both contributions 10, color YELLOW, a message naming the
token), and the expanded detail list is sorted by token identifier under
the bytewise string order the Go sort uses. -/
theorem expandTokens_unknown_and_sorted (tokens : List String) (t : String)
    (hmem : t ∈ tokens) (habs : scoreTable t = none) :
    ({ Token := t, ScoreIPv4 := 10, ScoreIPv6 := 10, Color := "YELLOW",
       Message := "(unknown result code: " ++ t ++ ")", MoreInfo := "" } : TokenDetail)
      ∈ expandTokens tokens ∧
    (expandTokens tokens).Pairwise (fun a b => strLt b.Token a.Token = false) := by
  constructor
  · rw [mem_expandTokens]
    exact ⟨t, hmem, by simp [expandOne, habs]⟩
  · exact pairwise_sortDetails _

/-- C8 (witness): the theorem applied to the unknown token "zzz". -/
theorem expandTokens_unknown_and_sorted_witness :
    ({ Token := "zzz", ScoreIPv4 := 10, ScoreIPv6 := 10, Color := "YELLOW",
       Message := "(unknown result code: " ++ "zzz" ++ ")", MoreInfo := "" } : TokenDetail)
      ∈ expandTokens ["ipv4_only", "zzz"] ∧
    (expandTokens ["ipv4_only", "zzz"]).Pairwise (fun a b => strLt b.Token a.Token = false) :=
  expandTokens_unknown_and_sorted ["ipv4_only", "zzz"] "zzz" (by decide) (by decide)

/-- C9 (counterexample): two RunResults with identical (empty) probe-result
lists but different run-summary IPv4 fields receive different Analyses,
because `buildStatusIndex` also reads the RunResult's top-level IPv4/IPv6
observation fields, not only its ProbeResults. -/
theorem analyze_reads_summary_fields_cex :
    ({} : RunResult).Results =
      ({ IPv4 := some { IP := "192.0.2.99", Typ := "ipv4" } } : RunResult).Results ∧
    Analyze {} ≠ Analyze { IPv4 := some { IP := "192.0.2.99", Typ := "ipv4" } } := by
  constructor
  · rfl
  · decide

/-- C9 (amended): Analyze is a pure function of the RunResult's
ProbeResults together with its top-level IPv4/IPv6 summary observations:
two RunResults agreeing on those three fields receive equal Analyses, and
no other field or external state is consulted. -/
theorem analyze_pure_of_results_and_summary (r1 r2 : RunResult)
    (hres : r1.Results = r2.Results) (h4 : r1.IPv4 = r2.IPv4) (h6 : r1.IPv6 = r2.IPv6) :
    Analyze r1 = Analyze r2 := by
  have hst : buildStatusIndex r1 = buildStatusIndex r2 := by
    unfold buildStatusIndex recordSummary
    rw [hres, h4, h6]
  simp only [Analyze, deriveTokens]
  rw [hst]

/-- C9 (witness): the amended theorem applied to two structurally equal
concrete RunResults. -/
theorem analyze_pure_of_results_and_summary_witness :
    Analyze { RunID := "a", Results := [{ Name := TestIPv4DNS, Status := StatusOK }] } =
    Analyze { RunID := "b", Results := [{ Name := TestIPv4DNS, Status := StatusOK }] } :=
  analyze_pure_of_results_and_summary _ _ rfl rfl rfl

/-- C4: probe classification.  A missing or empty endpoint URL yields a
skipped result with the explanatory note and no timing; a transport
failure from deadline/cancellation yields timeout; any other transport
failure yields error carrying the error text; a 2xx/3xx response yields
ok when the elapsed time is at most the slow threshold and slow when it
exceeds it; any other HTTP status yields bad carrying
"http status <code>". -/
theorem runSingle_classification (tn url txt body : String) (outcome : HTTPOutcome)
    (code durationNs slowThresholdNs packetSize : Int) :
    ((runSingle tn none outcome durationNs slowThresholdNs packetSize).Status = StatusSkipped ∧
     (runSingle tn none outcome durationNs slowThresholdNs packetSize).Notes =
       "no endpoint configured" ∧
     (runSingle tn none outcome durationNs slowThresholdNs packetSize).TimeMs = 0 ∧
     (runSingle tn (some "") outcome durationNs slowThresholdNs packetSize).Status =
       StatusSkipped ∧
     (runSingle tn (some "") outcome durationNs slowThresholdNs packetSize).TimeMs = 0) ∧
    (url ≠ "" →
      ((runSingle tn (some url) (.failure true txt) durationNs slowThresholdNs
          packetSize).Status = StatusTimeout) ∧
      ((runSingle tn (some url) (.failure false txt) durationNs slowThresholdNs
          packetSize).Status = StatusError ∧
       (runSingle tn (some url) (.failure false txt) durationNs slowThresholdNs
          packetSize).Error = txt) ∧
      (200 ≤ code → code < 400 → durationNs ≤ slowThresholdNs →
        (runSingle tn (some url) (.response code body) durationNs slowThresholdNs
          packetSize).Status = StatusOK) ∧
      (200 ≤ code → code < 400 → slowThresholdNs < durationNs →
        (runSingle tn (some url) (.response code body) durationNs slowThresholdNs
          packetSize).Status = StatusSlow) ∧
      ((code < 200 ∨ 400 ≤ code) →
        (runSingle tn (some url) (.response code body) durationNs slowThresholdNs
          packetSize).Status = StatusBad ∧
        (runSingle tn (some url) (.response code body) durationNs slowThresholdNs
          packetSize).Error = "http status " ++ toString code)) := by
  refine ⟨⟨rfl, rfl, rfl, rfl, rfl⟩, fun hurl => ⟨?_, ⟨?_, ?_⟩, ?_, ?_, ?_⟩⟩
  · simp [runSingle, hurl]
  · simp [runSingle, hurl]
  · simp [runSingle, hurl]
  · intro hlo hhi hfast
    have hrange : 200 ≤ code ∧ code < 400 := ⟨hlo, hhi⟩
    simp [runSingle, hurl, hrange, not_lt.mpr hfast]
  · intro hlo hhi hslow
    have hrange : 200 ≤ code ∧ code < 400 := ⟨hlo, hhi⟩
    simp [runSingle, hurl, hrange, hslow]
  · intro hout
    have hrange : ¬(200 ≤ code ∧ code < 400) := by omega
    constructor <;> simp [runSingle, hurl, hrange]

/-- C4 (witness): the theorem applied at a concrete unhealthy response
(HTTP 500 after 1ms against a 5ms threshold). -/
theorem runSingle_classification_witness :
    (runSingle "ipv4_dns" (some "https://ipv4.example.net/ip/") (.response 500 "")
      1000000 5000000 0).Status = StatusBad ∧
    (runSingle "ipv4_dns" (some "https://ipv4.example.net/ip/") (.response 500 "")
      1000000 5000000 0).Error = "http status " ++ toString (500 : Int) :=
  ((runSingle_classification "ipv4_dns" "https://ipv4.example.net/ip/" "boom" ""
      (.response 500 "") 500 1000000 5000000 0).2 (by decide)).2.2.2.2 (by omega)

/-- The usability test lifted to the optional result of a decode. -/
def usableOpt : Option IpObservation → Bool
  | some o => usableObs o
  | none => false

/-- The Scenario E response body: a JSONP callback wrapper around an IPv6
observation (braces written with code-point escapes). -/
def jsonpExampleBody : String :=
  "callback(\x7b\"ip\":\"2001:db8::1\",\"type\":\"ipv6\"\x7d);"

/-- C7: IP-observation extraction decodes the whole body first and keeps a
usable result; when that yields no usable address or type it decodes the
first-brace-to-last-brace span; when that is also unusable the result is
no observation with no error, and the probe Status never depends on the
body.  On the Scenario E JSONP body the whole-body decode fails and the
brace-span fallback extracts family ipv6. -/
theorem parseIPObservation_spec (body b1 b2 tn url : String)
    (code durationNs slowThresholdNs packetSize : Int) :
    (∀ o : IpObservation, jsonUnmarshalIpObservation body = some o → usableObs o = true →
      parseIPObservation body = some o) ∧
    (usableOpt (jsonUnmarshalIpObservation body) = false →
      parseIPObservation body = jsonpFallback body) ∧
    (usableOpt (jsonUnmarshalIpObservation body) = false →
     usableOpt (spanDecode body) = false →
      parseIPObservation body = none) ∧
    (url ≠ "" →
      (runSingle tn (some url) (.response code b1) durationNs slowThresholdNs
        packetSize).Status =
      (runSingle tn (some url) (.response code b2) durationNs slowThresholdNs
        packetSize).Status) ∧
    (jsonUnmarshalIpObservation jsonpExampleBody = none ∧
     parseIPObservation jsonpExampleBody = some { IP := "2001:db8::1", Typ := "ipv6" }) := by
  refine ⟨?_, ?_, ?_, ?_, by decide, by decide⟩
  · intro o hdec husable
    unfold parseIPObservation
    rw [hdec]
    simp [husable]
  · intro hfalse
    unfold parseIPObservation
    cases hdec : jsonUnmarshalIpObservation body with
    | none => rfl
    | some o =>
      rw [hdec] at hfalse
      simp only [usableOpt] at hfalse
      simp [hfalse]
  · intro hfalse hspan
    unfold parseIPObservation jsonpFallback
    cases hdec : jsonUnmarshalIpObservation body with
    | none =>
      cases hs : spanDecode body with
      | none => rfl
      | some o =>
        rw [hs] at hspan
        simp only [usableOpt] at hspan
        simp [hspan]
    | some o =>
      rw [hdec] at hfalse
      simp only [usableOpt] at hfalse
      simp only [hfalse, if_false]
      cases hs : spanDecode body with
      | none => rfl
      | some o2 =>
        rw [hs] at hspan
        simp only [usableOpt] at hspan
        simp [hspan]
  · intro hurl
    simp only [runSingle]
    rw [if_neg hurl]
    split_ifs <;> rfl

/-- C7 (witness): the theorem applied to a body that fails both the direct
decode and the brace-span fallback, yielding no observation. -/
theorem parseIPObservation_spec_witness :
    parseIPObservation "no json here" = none :=
  ((parseIPObservation_spec "no json here" "a" "b" "ipv4_dns" "https://x/"
      200 0 0 0).2.2.1) (by decide) (by decide)

set_option maxHeartbeats 1000000 in
/-- C10: an address-presence or primary-bucket token always fires, so the
deriver's compact-status fallback is unreachable, Analyze's token list is
never empty, and both scores Analyze returns lie in 0–10 (the −1 sentinel
never escapes Analyze). -/
theorem tokens_nonempty_scores_range (res : RunResult) :
    deriveTokens res (buildStatusIndex res) (buildStatusIndex res).miniPrimary
      (buildStatusIndex res).miniSecondary = deriveTokensCore (buildStatusIndex res) ∧
    (Analyze res).Tokens ≠ [] ∧
    0 ≤ (Analyze res).ScoreTransition ∧ (Analyze res).ScoreTransition ≤ 10 ∧
    0 ≤ (Analyze res).ScoreStrict ∧ (Analyze res).ScoreStrict ≤ 10 := by
  have hst : (Analyze res).Tokens =
      expandTokens (dedupe (deriveTokens res (buildStatusIndex res)
        (buildStatusIndex res).miniPrimary (buildStatusIndex res).miniSecondary)) := rfl
  have htokne : dedupe (deriveTokens res (buildStatusIndex res)
      (buildStatusIndex res).miniPrimary (buildStatusIndex res).miniSecondary) ≠ [] := by
    apply dedupe_ne_nil
    rw [deriveTokens_eq_core]
    exact deriveTokensCore_ne_nil _
  have hdetne := expandTokens_ne_nil _ htokne
  have hbounds : ∀ d ∈ expandTokens (dedupe (deriveTokens res (buildStatusIndex res)
      (buildStatusIndex res).miniPrimary (buildStatusIndex res).miniSecondary)),
      0 ≤ d.ScoreIPv4 ∧ d.ScoreIPv4 ≤ 10 ∧ 0 ≤ d.ScoreIPv6 ∧ d.ScoreIPv6 ≤ 10 := by
    intro d hd
    rcases (mem_expandTokens d _).mp hd with ⟨t, ht, rfl⟩
    rw [mem_dedupe, deriveTokens_eq_core] at ht
    exact emitted_bounds t (mem_deriveTokensCore _ t ht)
  have hscores := computeScores_of_bounded _ hdetne
    (fun d hd => ⟨(hbounds d hd).2.1, (hbounds d hd).2.2.2⟩)
  obtain ⟨_, ⟨d4, hd4, he4⟩, ⟨d6, hd6, he6⟩⟩ := hscores
  have hsT : (Analyze res).ScoreTransition =
      (computeScores (expandTokens (dedupe (deriveTokens res (buildStatusIndex res)
        (buildStatusIndex res).miniPrimary (buildStatusIndex res).miniSecondary)))).1 := rfl
  have hsS : (Analyze res).ScoreStrict =
      (computeScores (expandTokens (dedupe (deriveTokens res (buildStatusIndex res)
        (buildStatusIndex res).miniPrimary (buildStatusIndex res).miniSecondary)))).2 := rfl
  refine ⟨deriveTokens_eq_core _ _ _ _, by rw [hst]; exact hdetne, ?_, ?_, ?_, ?_⟩
  · rw [hsT, he4]; exact (hbounds d4 hd4).1
  · rw [hsT, he4]; exact (hbounds d4 hd4).2.1
  · rw [hsS, he6]; exact (hbounds d6 hd6).2.2.1
  · rw [hsS, he6]; exact (hbounds d6 hd6).2.2.2

theorem addr_token_only (st : statusIndex) (t : String)
    (ht : t = "no_address" ∨ t = "ipv4:no_address" ∨ t = "ipv6:no_address")
    (h : t ∈ deriveTokensCore st) : t ∈ addrTokens st := by
  rcases mem_core_cases st t h with h | h | h | h | h | h
  · exact h
  · exfalso
    rcases mem_primaryTokens st t h with rfl | rfl | rfl | rfl | rfl | rfl | rfl <;>
      rcases ht with h2 | h2 | h2 <;> exact absurd h2 (by decide)
  · exfalso
    rcases mem_v6nsTokens st t h with rfl | rfl <;>
      rcases ht with h2 | h2 | h2 <;> exact absurd h2 (by decide)
  · exfalso
    rcases mem_mtuTokens st t h with rfl
    rcases ht with h2 | h2 | h2 <;> exact absurd h2 (by decide)
  · exfalso
    rcases mem_needsTokens st t h with rfl | rfl <;>
      rcases ht with h2 | h2 | h2 <;> exact absurd h2 (by decide)
  · exfalso
    rcases mem_tunnelTokens st t h with rfl | rfl <;>
      rcases ht with h2 | h2 | h2 <;> exact absurd h2 (by decide)

theorem addrTokens_cases (st : statusIndex) :
    addrTokens st = [] ∨ addrTokens st = ["no_address"] ∨
    addrTokens st = ["ipv4:no_address"] ∨ addrTokens st = ["ipv6:no_address"] := by
  simp only [addrTokens]
  split_ifs <;> tauto

theorem addr_at_most_one (st : statusIndex) (x y : String)
    (hxa : x = "no_address" ∨ x = "ipv4:no_address" ∨ x = "ipv6:no_address")
    (hya : y = "no_address" ∨ y = "ipv4:no_address" ∨ y = "ipv6:no_address")
    (hx : x ∈ deriveTokensCore st) (hy : y ∈ deriveTokensCore st) : x = y := by
  have hx2 := addr_token_only st x hxa hx
  have hy2 := addr_token_only st y hya hy
  rcases addrTokens_cases st with h | h | h | h <;> rw [h] at hx2 hy2 <;>
    simp at hx2 hy2 <;> rw [hx2, hy2]

/-- C5: the address-presence rule emits at most one of `no_address`,
`ipv4:no_address`, `ipv6:no_address` into the derived token list, and
emits exactly the right one: `no_address` when neither family was
observed, `ipv4:no_address` when only IPv4 is missing, `ipv6:no_address`
when only IPv6 is missing, and none of the three when both families were
observed; when the run contains no IP observation at all the derived
token list begins with `no_address`. -/
theorem address_presence_rule (res : RunResult) :
    ((["no_address", "ipv4:no_address", "ipv6:no_address"].filter
        (fun t => t ∈ deriveTokens res (buildStatusIndex res)
          (buildStatusIndex res).miniPrimary
          (buildStatusIndex res).miniSecondary)).length ≤ 1) ∧
    (hasObs (buildStatusIndex res).ipv4 = false →
     hasObs (buildStatusIndex res).ipv6 = false →
      "no_address" ∈ deriveTokens res (buildStatusIndex res)
        (buildStatusIndex res).miniPrimary (buildStatusIndex res).miniSecondary) ∧
    (hasObs (buildStatusIndex res).ipv4 = false →
     hasObs (buildStatusIndex res).ipv6 = true →
      "ipv4:no_address" ∈ deriveTokens res (buildStatusIndex res)
        (buildStatusIndex res).miniPrimary (buildStatusIndex res).miniSecondary) ∧
    (hasObs (buildStatusIndex res).ipv4 = true →
     hasObs (buildStatusIndex res).ipv6 = false →
      "ipv6:no_address" ∈ deriveTokens res (buildStatusIndex res)
        (buildStatusIndex res).miniPrimary (buildStatusIndex res).miniSecondary) ∧
    (hasObs (buildStatusIndex res).ipv4 = true →
     hasObs (buildStatusIndex res).ipv6 = true →
      "no_address" ∉ deriveTokens res (buildStatusIndex res)
        (buildStatusIndex res).miniPrimary (buildStatusIndex res).miniSecondary ∧
      "ipv4:no_address" ∉ deriveTokens res (buildStatusIndex res)
        (buildStatusIndex res).miniPrimary (buildStatusIndex res).miniSecondary ∧
      "ipv6:no_address" ∉ deriveTokens res (buildStatusIndex res)
        (buildStatusIndex res).miniPrimary (buildStatusIndex res).miniSecondary) ∧
    ((∀ tr ∈ res.Results, tr.IP = none) → res.IPv4 = none → res.IPv6 = none →
      (deriveTokens res (buildStatusIndex res) (buildStatusIndex res).miniPrimary
        (buildStatusIndex res).miniSecondary).head? = some "no_address") := by
  refine ⟨?_, ?_, ?_, ?_, ?_, ?_⟩
  · rw [deriveTokens_eq_core]
    by_cases h1 : "no_address" ∈ deriveTokensCore (buildStatusIndex res) <;>
    by_cases h2 : "ipv4:no_address" ∈ deriveTokensCore (buildStatusIndex res) <;>
    by_cases h3 : "ipv6:no_address" ∈ deriveTokensCore (buildStatusIndex res) <;>
      first
        | (exact absurd (addr_at_most_one (buildStatusIndex res) _ _
            (by tauto) (by tauto) h1 h2) (by decide))
        | (exact absurd (addr_at_most_one (buildStatusIndex res) _ _
            (by tauto) (by tauto) h1 h3) (by decide))
        | (exact absurd (addr_at_most_one (buildStatusIndex res) _ _
            (by tauto) (by tauto) h2 h3) (by decide))
        | simp [List.filter, h1, h2, h3]
  · intro h4 h6
    rw [deriveTokens_eq_core]
    have haddr : addrTokens (buildStatusIndex res) = ["no_address"] := by
      simp [addrTokens, h4, h6]
    unfold deriveTokensCore
    rw [haddr]
    simp
  · intro h4 h6
    rw [deriveTokens_eq_core]
    have haddr : addrTokens (buildStatusIndex res) = ["ipv4:no_address"] := by
      simp [addrTokens, h4, h6]
    unfold deriveTokensCore
    rw [haddr]
    simp
  · intro h4 h6
    rw [deriveTokens_eq_core]
    have haddr : addrTokens (buildStatusIndex res) = ["ipv6:no_address"] := by
      simp [addrTokens, h4, h6]
    unfold deriveTokensCore
    rw [haddr]
    simp
  · intro h4 h6
    have haddr : addrTokens (buildStatusIndex res) = [] := by
      simp [addrTokens, h4, h6]
    refine ⟨?_, ?_, ?_⟩ <;> intro hmem <;> rw [deriveTokens_eq_core] at hmem <;>
      have h := addr_token_only (buildStatusIndex res) _ (by tauto) hmem <;>
      rw [haddr] at h <;> simp at h
  · intro hIP h4 h6
    have hwalk := foldl_obs_none res.Results hIP {}
    have hi4 : (buildStatusIndex res).ipv4 = none := by
      simp [buildStatusIndex, recordSummary, defaultSkipped, h4, hwalk.1]
    have hi6 : (buildStatusIndex res).ipv6 = none := by
      simp [buildStatusIndex, recordSummary, defaultSkipped, h6, hwalk.2]
    rw [deriveTokens_eq_core]
    have haddr : addrTokens (buildStatusIndex res) = ["no_address"] := by
      simp [addrTokens, hasObs, hi4, hi6]
    unfold deriveTokensCore
    rw [haddr]
    rfl

/-- C5 (witness): the theorem applied to the empty RunResult, where
neither family was observed, so `no_address` is emitted and the tokens
begin with it. -/
theorem address_presence_rule_witness :
    "no_address" ∈ deriveTokens {} (buildStatusIndex {})
      (buildStatusIndex {}).miniPrimary (buildStatusIndex {}).miniSecondary ∧
    (deriveTokens {} (buildStatusIndex {}) (buildStatusIndex {}).miniPrimary
      (buildStatusIndex {}).miniSecondary).head? = some "no_address" :=
  ⟨(address_presence_rule {}).2.1 (by decide) (by decide),
   (address_presence_rule {}).2.2.2.2.2 (by simp) rfl rfl⟩

theorem primary_token_only (st : statusIndex) (t : String)
    (ht : t = "ipv4_only" ∨ t = "ipv6_only" ∨ t = "avoids_ipv6" ∨ t = "dualstack:safe")
    (h : t ∈ deriveTokensCore st) : t ∈ primaryTokens st := by
  rcases mem_core_cases st t h with h | h | h | h | h | h
  · exfalso
    rcases mem_addrTokens st t h with rfl | rfl | rfl <;>
      rcases ht with h2 | h2 | h2 | h2 <;> exact absurd h2 (by decide)
  · exact h
  · exfalso
    rcases mem_v6nsTokens st t h with rfl | rfl <;>
      rcases ht with h2 | h2 | h2 | h2 <;> exact absurd h2 (by decide)
  · exfalso
    rcases mem_mtuTokens st t h with rfl
    rcases ht with h2 | h2 | h2 | h2 <;> exact absurd h2 (by decide)
  · exfalso
    rcases mem_needsTokens st t h with rfl | rfl <;>
      rcases ht with h2 | h2 | h2 | h2 <;> exact absurd h2 (by decide)
  · exfalso
    rcases mem_tunnelTokens st t h with rfl | rfl <;>
      rcases ht with h2 | h2 | h2 | h2 <;> exact absurd h2 (by decide)

theorem primaryTokens_exactly_one (st : statusIndex)
    (h : hasObs st.ipv4 = true ∨ hasObs st.ipv6 = true) :
    (["ipv4_only", "ipv6_only", "avoids_ipv6", "dualstack:safe"].filter
      (fun t => t ∈ primaryTokens st)).length = 1 := by
  cases h4 : hasObs st.ipv4 <;> cases h6 : hasObs st.ipv6
  · rw [h4, h6] at h
    rcases h with h | h <;> exact absurd h (by decide)
  · have hp : primaryTokens st = ["ipv6_only"] := by simp [primaryTokens, h4, h6]
    rw [hp]; decide
  · have hp : primaryTokens st =
        (if statusChar st.ds6 = "s" then ["ipv4_only:ds_slow"]
         else if statusChar st.ds6 = "t" ∨ statusChar st.ds6 = "b" then
           ["ipv4_only:ds_timeout"]
         else ["ipv4_only:ds_good"]) ++ ["ipv4_only"] := by
      simp [primaryTokens, h4, h6]
    rw [hp]; split_ifs <;> decide
  · have hp : primaryTokens st =
        if statusChar st.ds6 = "b" ∨ statusChar st.ds6 = "t" then ["avoids_ipv6"]
        else ["dualstack:safe"] := by
      simp [primaryTokens, h4, h6]
    rw [hp]; split_ifs <;> decide

/-- C6: whenever at least one address family was observed, exactly one of
`ipv4_only`, `ipv6_only`, `avoids_ipv6`, `dualstack:safe` appears in the
deduplicated derived token list. -/
theorem primary_bucket_exclusive (res : RunResult)
    (h : hasObs (buildStatusIndex res).ipv4 = true ∨
         hasObs (buildStatusIndex res).ipv6 = true) :
    (["ipv4_only", "ipv6_only", "avoids_ipv6", "dualstack:safe"].filter
      (fun t => t ∈ dedupe (deriveTokens res (buildStatusIndex res)
        (buildStatusIndex res).miniPrimary
        (buildStatusIndex res).miniSecondary))).length = 1 := by
  have hcong : ∀ t ∈ (["ipv4_only", "ipv6_only", "avoids_ipv6", "dualstack:safe"] :
      List String),
      decide (t ∈ dedupe (deriveTokens res (buildStatusIndex res)
        (buildStatusIndex res).miniPrimary (buildStatusIndex res).miniSecondary)) =
      decide (t ∈ primaryTokens (buildStatusIndex res)) := by
    intro t ht
    rw [decide_eq_decide, mem_dedupe, deriveTokens_eq_core]
    constructor
    · intro h2
      refine primary_token_only _ t ?_ h2
      simp at ht
      tauto
    · intro h2
      unfold deriveTokensCore
      simp only [List.mem_append]
      tauto
  rw [List.filter_congr hcong]
  exact primaryTokens_exactly_one _ h

/-- C6 (witness): the theorem applied to a run whose summary carries an
IPv4 observation, where `ipv4_only` is the unique primary-bucket token. -/
theorem primary_bucket_exclusive_witness :
    (["ipv4_only", "ipv6_only", "avoids_ipv6", "dualstack:safe"].filter
      (fun t => t ∈ dedupe (deriveTokens
        { IPv4 := some { IP := "192.0.2.5", Typ := "ipv4" } }
        (buildStatusIndex { IPv4 := some { IP := "192.0.2.5", Typ := "ipv4" } })
        (buildStatusIndex { IPv4 := some { IP := "192.0.2.5", Typ := "ipv4" } }).miniPrimary
        (buildStatusIndex
          { IPv4 := some { IP := "192.0.2.5", Typ := "ipv4" } }).miniSecondary))).length
      = 1 :=
  primary_bucket_exclusive { IPv4 := some { IP := "192.0.2.5", Typ := "ipv4" } }
    (Or.inl (by decide))

/-- The dual-stack branch condition
`tr.IP != nil && strings.EqualFold(tr.IP.Type, "ipv6")`. -/
def dualObsIPv6 (tr : TestResult) : Bool :=
  match tr.IP with
  | some o => asciiEqualFold o.Typ "ipv6"
  | none => false

/-- C3: the dual-stack probe's status lands in the IPv6 slot when its
observed family is IPv6 and in the IPv4 slot otherwise; the other
family's dual-stack slot is set to bad unless already set; the probe's
observation feeds the overall IPv4/IPv6 observation only when that
observation was not already set; and every status slot left unset after
the walk defaults to skipped. -/
theorem buildStatusIndex_dualstack_spec (s : statusIndex) (tr : TestResult)
    (res : RunResult) (hname : tr.Name = TestDualStack) :
    (dualObsIPv6 tr = true →
      (applyResult s tr).ds6 = tr.Status ∧
      (applyResult s tr).ds4 = (if s.ds4 = "" then StatusBad else s.ds4) ∧
      (s.ipv6 = none → (applyResult s tr).ipv6 = tr.IP) ∧
      ((applyResult s tr).ipv6 ≠ s.ipv6 → s.ipv6 = none) ∧
      (applyResult s tr).ipv4 = s.ipv4) ∧
    (dualObsIPv6 tr = false →
      (applyResult s tr).ds4 = tr.Status ∧
      (applyResult s tr).ds6 = (if s.ds6 = "" then StatusBad else s.ds6) ∧
      ((applyResult s tr).ipv4 ≠ s.ipv4 → s.ipv4 = none) ∧
      (applyResult s tr).ipv6 = s.ipv6) ∧
    ((buildStatusIndex res).a =
      (if (res.Results.foldl applyResult {}).a = "" then StatusSkipped
       else (res.Results.foldl applyResult {}).a) ∧
     (buildStatusIndex res).aaaa =
      (if (res.Results.foldl applyResult {}).aaaa = "" then StatusSkipped
       else (res.Results.foldl applyResult {}).aaaa) ∧
     (buildStatusIndex res).ds4 =
      (if (res.Results.foldl applyResult {}).ds4 = "" then StatusSkipped
       else (res.Results.foldl applyResult {}).ds4) ∧
     (buildStatusIndex res).ds6 =
      (if (res.Results.foldl applyResult {}).ds6 = "" then StatusSkipped
       else (res.Results.foldl applyResult {}).ds6) ∧
     (buildStatusIndex res).v6mtu =
      (if (res.Results.foldl applyResult {}).v6mtu = "" then StatusSkipped
       else (res.Results.foldl applyResult {}).v6mtu) ∧
     (buildStatusIndex res).dsmtu =
      (if (res.Results.foldl applyResult {}).dsmtu = "" then StatusSkipped
       else (res.Results.foldl applyResult {}).dsmtu) ∧
     (buildStatusIndex res).v6ns =
      (if (res.Results.foldl applyResult {}).v6ns = "" then StatusSkipped
       else (res.Results.foldl applyResult {}).v6ns)) := by
  have hn1 : ¬tr.Name = TestIPv4DNS := by rw [hname]; decide
  have hn2 : ¬tr.Name = TestIPv6DNS := by rw [hname]; decide
  refine ⟨?_, ?_, rfl, rfl, rfl, rfl, rfl, rfl, rfl⟩
  · intro h6
    unfold applyResult
    rw [if_neg hn1, if_neg hn2, if_pos hname]
    cases hip : tr.IP with
    | none => unfold dualObsIPv6 at h6; rw [hip] at h6; exact absurd h6 (by decide)
    | some o =>
      have hfold : asciiEqualFold o.Typ "ipv6" = true := by
        unfold dualObsIPv6 at h6; rw [hip] at h6; exact h6
      simp only [hfold, if_true]
      by_cases hds4 : s.ds4 = "" <;> by_cases hip6 : s.ipv6 = none <;>
        refine ⟨?_, ?_, ?_, ?_, ?_⟩ <;> simp_all
  · intro h6
    unfold applyResult
    rw [if_neg hn1, if_neg hn2, if_pos hname]
    cases hip : tr.IP with
    | none =>
      unfold applyDualStackElse
      rw [hip]
      by_cases hds6 : s.ds6 = "" <;> refine ⟨?_, ?_, ?_, ?_⟩ <;> simp_all
    | some o =>
      have hfold : asciiEqualFold o.Typ "ipv6" = false := by
        unfold dualObsIPv6 at h6; rw [hip] at h6; exact h6
      simp only [hfold]
      unfold applyDualStackElse
      rw [hip]
      by_cases hds6 : s.ds6 = "" <;> by_cases htyp : o.Typ = "ipv4" <;>
        by_cases hip4 : s.ipv4 = none <;> refine ⟨?_, ?_, ?_, ?_⟩ <;> simp_all

/-- A dual-stack probe result that observed an IPv6 address, for the C3
witness. -/
def dsProbeExample : TestResult :=
  { Name := "dual_stack", Status := "ok",
    IP := some { IP := "2001:db8::2", Typ := "ipv6" } }

/-- C3 (witness): the dual-stack step applied to an empty index and an
ok probe that observed an IPv6 address: the status lands in the IPv6
slot and the IPv4 slot defaults to bad. -/
theorem buildStatusIndex_dualstack_spec_witness :
    (applyResult ({} : statusIndex) dsProbeExample).ds6 = "ok" ∧
    (applyResult ({} : statusIndex) dsProbeExample).ds4 = StatusBad := by
  have h := (buildStatusIndex_dualstack_spec ({} : statusIndex) dsProbeExample
    ({} : RunResult) rfl).1 (by decide)
  exact ⟨h.1, by rw [h.2.1]; decide⟩

/-- A Scenario B run: IPv4-only probe ok with an IPv4 observation,
IPv6-only probe timed out with no observation, dual-stack probe ok with
an observation that resolved as IPv4; parameterized by the two observed
addresses. -/
def scenarioBRun (ip1 ip2 : String) : RunResult :=
  { Results := [ { Name := "ipv4_dns", Status := "ok",
                   IP := some { IP := ip1, Typ := "ipv4" } },
                 { Name := "ipv6_dns", Status := "timeout" },
                 { Name := "dual_stack", Status := "ok",
                   IP := some { IP := ip2, Typ := "ipv4" } } ] }

/-- C2 (counterexample): in Scenario B the analysis emits neither
`ipv4:no_address` nor `ipv4_only:ds_good`: the missing family is IPv6 so
the address token is `ipv6:no_address`, and the IPv6 dual-stack slot
defaulted to bad so the refinement is `ipv4_only:ds_timeout`. -/
theorem scenarioB_claimed_tokens_cex :
    "ipv4:no_address" ∉
      (Analyze (scenarioBRun "192.0.2.1" "192.0.2.1")).Tokens.map (fun d => d.Token) ∧
    "ipv4_only:ds_good" ∉
      (Analyze (scenarioBRun "192.0.2.1" "192.0.2.1")).Tokens.map (fun d => d.Token) := by
  decide

set_option maxHeartbeats 4000000 in
/-- C2 (amended): for every Scenario B run whose IPv4-only probe observed
a nonempty IPv4 address, the IPv6 dual-stack slot defaults to bad and the
analysis tokens include `ipv6:no_address`, `ipv4_only:ds_timeout`, and
`ipv4_only`, with ScoreStrict = 0. -/
theorem scenarioB_tokens (ip1 ip2 : String) (h1 : ip1 ≠ "") :
    (buildStatusIndex (scenarioBRun ip1 ip2)).ds6 = StatusBad ∧
    "ipv6:no_address" ∈
      (Analyze (scenarioBRun ip1 ip2)).Tokens.map (fun d => d.Token) ∧
    "ipv4_only:ds_timeout" ∈
      (Analyze (scenarioBRun ip1 ip2)).Tokens.map (fun d => d.Token) ∧
    "ipv4_only" ∈
      (Analyze (scenarioBRun ip1 ip2)).Tokens.map (fun d => d.Token) ∧
    (Analyze (scenarioBRun ip1 ip2)).ScoreStrict = 0 := by
  have hst : buildStatusIndex (scenarioBRun ip1 ip2) =
      { a := "ok", aaaa := "timeout", ds4 := "ok", ds6 := "bad",
        v6mtu := "skipped", dsmtu := "skipped", v6ns := "skipped",
        ipv4 := some { IP := ip1, Typ := "ipv4" }, ipv6 := none } := rfl
  have hb : (ip1 != "") = true := by simpa using h1
  have htoks : deriveTokensCore (buildStatusIndex (scenarioBRun ip1 ip2)) =
      ["ipv6:no_address", "ipv4_only:ds_timeout", "ipv4_only", "needs_ipv6"] := by
    rw [hst]
    simp [deriveTokensCore, addrTokens, primaryTokens, v6nsTokens, mtuTokens,
      needsTokens, tunnelTokens, hasObs, hb, statusChar, isGood, isBadish,
      isTunnel, isTunnelType, StatusOK, StatusSlow, StatusBad, StatusTimeout,
      StatusSkipped, StatusError]
  have hded : dedupe (deriveTokens (scenarioBRun ip1 ip2)
      (buildStatusIndex (scenarioBRun ip1 ip2))
      (buildStatusIndex (scenarioBRun ip1 ip2)).miniPrimary
      (buildStatusIndex (scenarioBRun ip1 ip2)).miniSecondary) =
      ["ipv6:no_address", "ipv4_only:ds_timeout", "ipv4_only", "needs_ipv6"] := by
    rw [deriveTokens_eq_core, htoks]
    rfl
  have hTok : (Analyze (scenarioBRun ip1 ip2)).Tokens =
      expandTokens (dedupe (deriveTokens (scenarioBRun ip1 ip2)
        (buildStatusIndex (scenarioBRun ip1 ip2))
        (buildStatusIndex (scenarioBRun ip1 ip2)).miniPrimary
        (buildStatusIndex (scenarioBRun ip1 ip2)).miniSecondary)) := rfl
  have hS : (Analyze (scenarioBRun ip1 ip2)).ScoreStrict =
      (computeScores (expandTokens (dedupe (deriveTokens (scenarioBRun ip1 ip2)
        (buildStatusIndex (scenarioBRun ip1 ip2))
        (buildStatusIndex (scenarioBRun ip1 ip2)).miniPrimary
        (buildStatusIndex (scenarioBRun ip1 ip2)).miniSecondary)))).2 := rfl
  refine ⟨by rw [hst]; rfl, ?_, ?_, ?_, ?_⟩
  · rw [hTok, mem_map_token_expandTokens, hded]; decide
  · rw [hTok, mem_map_token_expandTokens, hded]; decide
  · rw [hTok, mem_map_token_expandTokens, hded]; decide
  · rw [hS, hded]; decide

/-- C2 (witness): the amended theorem at concrete addresses. -/
theorem scenarioB_tokens_witness :
    (Analyze (scenarioBRun "192.0.2.1" "192.0.2.7")).ScoreStrict = 0 :=
  (scenarioB_tokens "192.0.2.1" "192.0.2.7" (by decide)).2.2.2.2
